import Mathlib

/-!
Verification of the InstantTrade Network (ITN) repository.

The embedding translates the PostgreSQL schema `src/itn_db_schema_v1.sql`
(tables, CHECK constraints, UNIQUE constraints, rules, triggers, and the
`system_health` view) and the invariant catalogue in `src/unnamed/part_000`
(the `ALLOWED_TRANSITIONS` table and the invariant pre-checks) into Lean.

Conventions:
- `DECIMAL(15,2)` money columns are modelled as integer cents (`Int`).
  The SQL literal `0.01` is one cent.
- `TIMESTAMPTZ` values and durations are modelled as integer milliseconds
  (`Int`); `DECIMAL(10,3)` second durations are exact in milliseconds.
- `DECIMAL(5,4)` fraud scores are modelled as `Int` in units of 1/10000,
  so the threshold `0.75` is `7500`.
- `DECIMAL(10,8)` discount rates are modelled as `Rat`.
- Contact and address columns of `accounts`, and metadata columns that no
  claim mentions, are omitted from the row structures.
-/

namespace ITN

/-- Account type values, `itn_core.accounts.account_type` CHECK list. -/
inductive AccountType where
  | SUPPLIER
  | BUYER
  | CAPITAL_PROVIDER
deriving DecidableEq, Repr

/-- Account status values, `itn_core.accounts.status` CHECK list. -/
inductive AccountStatus where
  | PENDING
  | ACTIVE
  | SUSPENDED
  | FROZEN
  | CLOSED
deriving DecidableEq, Repr

/-- KYC status values, `itn_core.accounts.kyc_status` CHECK list. -/
inductive KycStatus where
  | PENDING
  | IN_REVIEW
  | VERIFIED
  | REJECTED
  | EXPIRED
deriving DecidableEq, Repr

/-- Invoice status names used across the repository.  The SQL CHECK list on
`itn_core.invoices.status` (schema line 88) names six of them; the
`ALLOWED_TRANSITIONS` table in `src/unnamed/part_000` additionally uses
`FAILED`.  Both artifacts are embedded below over this common type. -/
inductive InvoiceStatus where
  | PENDING
  | ACCEPTED
  | SETTLED
  | REJECTED
  | EXPIRED
  | FRAUD_REVIEW
  | FAILED
deriving DecidableEq, Repr

/-- Settlement status values, `itn_core.settlements.status` CHECK list. -/
inductive SettlementStatus where
  | PENDING
  | IN_PROGRESS
  | COMPLETED
  | FAILED
  | ROLLED_BACK
deriving DecidableEq, Repr

/-- Settlement leg types, `itn_core.settlement_legs.leg_type` CHECK list:
CREDIT (credit-supplier), DEBIT (debit-buyer), ADVANCE (advance-capital). -/
inductive LegType where
  | CREDIT
  | DEBIT
  | ADVANCE
deriving DecidableEq, Repr

instance : Fintype LegType :=
  ⟨⟨{LegType.CREDIT, LegType.DEBIT, LegType.ADVANCE}, by decide⟩, by
    intro x; cases x <;> decide⟩

/-- `itn_core.invoices.status` CHECK constraint, schema line 88:
`status IN ('PENDING','ACCEPTED','SETTLED','REJECTED','EXPIRED','FRAUD_REVIEW')`.
Note that `FAILED` is not in the list. -/
def invoiceStatusCheck : InvoiceStatus → Bool
  | .PENDING => true
  | .ACCEPTED => true
  | .SETTLED => true
  | .REJECTED => true
  | .EXPIRED => true
  | .FRAUD_REVIEW => true
  | .FAILED => false

/-- `ALLOWED_TRANSITIONS` from `src/unnamed/part_000`, lines 241-251. -/
def ALLOWED_TRANSITIONS : InvoiceStatus → List InvoiceStatus
  | .PENDING => [.ACCEPTED, .REJECTED, .EXPIRED, .FRAUD_REVIEW]
  | .ACCEPTED => [.SETTLED, .FAILED]
  | .FRAUD_REVIEW => [.ACCEPTED, .REJECTED]
  | .SETTLED => []
  | .REJECTED => []
  | .EXPIRED => []
  | .FAILED => [.REJECTED]

/-- `itn_core.invoices.amount` CHECK constraint, schema line 81:
`amount >= 100.00 AND amount <= 10000000.00`, in cents. -/
def invoiceAmountCheck (amountCents : Int) : Bool :=
  10000 ≤ amountCents && amountCents ≤ 1000000000

/-- `itn_core.invoices.terms` CHECK constraint, schema line 85:
`terms IN (0, 15, 30, 45, 60, 90)`. -/
def invoiceTermsCheck (terms : Int) : Bool :=
  terms == 0 || terms == 15 || terms == 30 || terms == 45 ||
    terms == 60 || terms == 90

/-- `valid_fraud_score` CHECK constraint, schema line 109:
`fraud_score IS NULL OR (fraud_score >= 0 AND fraud_score <= 1)`,
in units of 1/10000. -/
def fraudScoreCheck : Option Int → Bool
  | none => true
  | some sc => 0 ≤ sc && sc ≤ 10000

/-- Pre-check of `inv_202_fraud_score_fresh` (`src/unnamed/part_000`,
lines 353-369): `fraud_score_calculated_at > (now() - 24 hours) AND
fraud_score < 0.75`.  Time in milliseconds, score in units of 1/10000;
24 hours is 86400000 ms and 0.75 is 7500. -/
def fraudPreCheck (now calculatedAt : Int) (score : Int) : Bool :=
  now - 86400000 < calculatedAt && score < 7500

/-- Row of `itn_core.accounts` (schema lines 27-63).  Contact, address and
metadata columns are omitted; money in cents. -/
structure Account where
  id : String
  account_type : AccountType
  status : AccountStatus
  kyc_status : KycStatus
  balance : Int
  credit_limit : Option Int
deriving DecidableEq, Repr

/-- CHECK constraints of `itn_core.accounts`: `positive_balance`
(`balance >= 0`) and `positive_credit_limit`
(`credit_limit IS NULL OR credit_limit >= 0`). -/
def accountRowCheck (a : Account) : Bool :=
  0 ≤ a.balance &&
    (match a.credit_limit with
      | none => true
      | some cl => 0 ≤ cl)

/-- Row of `itn_core.invoices` (schema lines 75-110).  `purchase_order_id`,
`notes` and the raw timestamps are omitted; money in cents, fraud score in
units of 1/10000. -/
structure Invoice where
  id : String
  supplier_id : String
  buyer_id : String
  amount : Int
  terms : Int
  status : InvoiceStatus
  fraud_score : Option Int
  invoice_hash : String
deriving DecidableEq, Repr

/-- Per-row CHECK constraints of `itn_core.invoices`: the amount range
(line 81), the terms whitelist (line 85), the status list (line 88),
`different_parties` (line 108) and `valid_fraud_score` (line 109). -/
def invoiceRowCheck (i : Invoice) : Bool :=
  invoiceAmountCheck i.amount && invoiceTermsCheck i.terms &&
    invoiceStatusCheck i.status && !(i.supplier_id == i.buyer_id) &&
    fraudScoreCheck i.fraud_score

/-- Row of `itn_core.line_items` (schema lines 126-142).  The generated
`amount` column is the function `lineItemAmount` below. -/
structure LineItem where
  invoice_id : String
  description : String
  quantity : Int
  unit_price : Int
  line_number : Int
deriving DecidableEq, Repr

/-- Generated column of `itn_core.line_items`:
`amount GENERATED ALWAYS AS (quantity * unit_price) STORED` (line 134). -/
def lineItemAmount (li : LineItem) : Int :=
  li.quantity * li.unit_price

/-- Per-row CHECK constraints of `itn_core.line_items`:
`quantity > 0` (line 132) and `unit_price > 0` (line 133). -/
def lineItemRowCheck (li : LineItem) : Bool :=
  0 < li.quantity && 0 < li.unit_price

/-- Row of `itn_core.settlements` (schema lines 149-180).  The generated
columns `capital_profit` and `duration_seconds` are the functions below;
times in milliseconds. -/
structure Settlement where
  id : String
  invoice_id : String
  supplier_id : String
  buyer_id : String
  capital_provider_id : String
  invoice_amount : Int
  discount_rate : Rat
  buyer_cost : Int
  started_at : Int
  completed_at : Option Int
  status : SettlementStatus
  rail_used : Option String
deriving DecidableEq, Repr

/-- Generated column of `itn_core.settlements` (line 162):
`capital_profit GENERATED ALWAYS AS (buyer_cost - invoice_amount) STORED`. -/
def capitalProfit (st : Settlement) : Int :=
  st.buyer_cost - st.invoice_amount

/-- Generated column of `itn_core.settlements` (line 167):
`duration_seconds AS (EXTRACT(EPOCH FROM (completed_at - started_at)))`,
here in milliseconds, `none` while `completed_at IS NULL`. -/
def durationMs (st : Settlement) : Option Int :=
  match st.completed_at with
  | none => none
  | some c => some (c - st.started_at)

/-- Per-row CHECK constraints of `itn_core.settlements`: the status list
(line 170) is total on `SettlementStatus`, so the remaining check is
`settlement_duration_check` (line 179):
`completed_at IS NULL OR duration_seconds < 5.0`, i.e. below 5000 ms. -/
def settlementRowCheck (st : Settlement) : Bool :=
  match st.completed_at with
  | none => true
  | some c => c - st.started_at < 5000

/-- Row of `itn_core.settlement_legs` (schema lines 191-208). -/
structure SettlementLeg where
  settlement_id : String
  leg_type : LegType
  account_id : String
  amount : Int
  transaction_id : String
deriving DecidableEq, Repr

/-- Per-row CHECK constraint of `itn_core.settlement_legs`:
`amount > 0` (line 198). -/
def legRowCheck (l : SettlementLeg) : Bool :=
  0 < l.amount

/-- Row of `itn_core.pricing_quotes` (schema lines 216-236);
times in milliseconds. -/
structure PricingQuote where
  invoice_id : String
  amount : Int
  terms : Int
  discount_rate : Rat
  total_cost : Int
  created_at : Int
  expires_at : Int
  used : Bool
deriving DecidableEq, Repr

/-- Per-row CHECK constraints of `itn_core.pricing_quotes`:
`quote_validity` (`expires_at > created_at`, line 234) and
`quote_expiry_window` (`expires_at <= created_at + INTERVAL '5 minutes'`,
line 235); 5 minutes is 300000 ms. -/
def quoteRowCheck (q : PricingQuote) : Bool :=
  q.created_at < q.expires_at && q.expires_at ≤ q.created_at + 300000

/-- Database state over the `itn_core` tables the claims mention. -/
structure DBState where
  accounts : List Account
  invoices : List Invoice
  line_items : List LineItem
  settlements : List Settlement
  legs : List SettlementLeg
  quotes : List PricingQuote
deriving DecidableEq, Repr

def accountExists (s : DBState) (accId : String) : Bool :=
  s.accounts.any (fun a => a.id == accId)

def invoiceExists (s : DBState) (invId : String) : Bool :=
  s.invoices.any (fun i => i.id == invId)

def settlementExists (s : DBState) (stlId : String) : Bool :=
  s.settlements.any (fun st => st.id == stlId)

/-- All table-level constraints of the schema over a database state: the
per-row CHECK constraints, the PRIMARY KEY and UNIQUE constraints
(`accounts.id`, `invoices.id`, `invoices.invoice_hash` UNIQUE line 95,
`settlements.id`, `settlements.invoice_id` UNIQUE line 151,
`UNIQUE(settlement_id, leg_type)` line 207,
`UNIQUE(invoice_id, line_number)` line 141), and the REFERENCES (foreign
key) clauses.  Trigger-enforced conditions (the line-item sum) are not
state constraints; they are modelled on the insert and update operations
below, as in the source. -/
def schemaOk (s : DBState) : Bool :=
  s.accounts.all accountRowCheck &&
    decide (s.accounts.map (fun a => a.id)).Nodup &&
    s.invoices.all invoiceRowCheck &&
    decide (s.invoices.map (fun i => i.id)).Nodup &&
    decide (s.invoices.map (fun i => i.invoice_hash)).Nodup &&
    s.invoices.all (fun i =>
      accountExists s i.supplier_id && accountExists s i.buyer_id) &&
    s.line_items.all lineItemRowCheck &&
    decide (s.line_items.map (fun li => (li.invoice_id, li.line_number))).Nodup &&
    s.line_items.all (fun li => invoiceExists s li.invoice_id) &&
    s.settlements.all settlementRowCheck &&
    decide (s.settlements.map (fun st => st.id)).Nodup &&
    decide (s.settlements.map (fun st => st.invoice_id)).Nodup &&
    s.settlements.all (fun st =>
      invoiceExists s st.invoice_id && accountExists s st.supplier_id &&
        accountExists s st.buyer_id && accountExists s st.capital_provider_id) &&
    s.legs.all legRowCheck &&
    decide (s.legs.map (fun l => (l.settlement_id, l.leg_type))).Nodup &&
    s.legs.all (fun l =>
      settlementExists s l.settlement_id && accountExists s l.account_id) &&
    s.quotes.all quoteRowCheck &&
    s.quotes.all (fun q => invoiceExists s q.invoice_id)

/-- Sum of the `amount` column over the legs of one type, as in the
subqueries of the `itn_core.system_health` view (schema lines 441-442):
`SELECT COALESCE(SUM(amount), 0) FROM itn_core.settlement_legs WHERE
leg_type = ...`. -/
def sumLegs (legs : List SettlementLeg) (t : LegType) : Int :=
  ((legs.filter (fun l => l.leg_type == t)).map (fun l => l.amount)).sum

/-- `ledger_balanced` column of the `itn_core.system_health` view (schema
lines 443-444): `ABS(total CREDIT legs - total DEBIT legs) < 0.01`,
in cents `< 1`.  ADVANCE legs do not appear in the expression. -/
def ledgerBalanced (legs : List SettlementLeg) : Bool :=
  (sumLegs legs LegType.CREDIT - sumLegs legs LegType.DEBIT).natAbs < 1

/-- The balance equation as the specification states it (sections 4.1 and
8): `Σ credits = Σ debits + Σ capital-advances`, within `0.01`.  This
definition follows the wording of the spec and is compared against
`ledgerBalanced`, which follows the view in the schema. -/
def specBalanced (legs : List SettlementLeg) : Bool :=
  (sumLegs legs LegType.CREDIT -
    (sumLegs legs LegType.DEBIT + sumLegs legs LegType.ADVANCE)).natAbs < 1

/-- `INSERT INTO itn_core.invoices`: the row is stored when its CHECK
constraints, the PRIMARY KEY, the UNIQUE hash (line 95) and the account
foreign keys accept it; otherwise the statement fails and no row is
created. -/
def insertInvoice (s : DBState) (i : Invoice) : Option DBState :=
  if invoiceRowCheck i &&
      !(s.invoices.any (fun x => x.id == i.id)) &&
      !(s.invoices.any (fun x => x.invoice_hash == i.invoice_hash)) &&
      accountExists s i.supplier_id && accountExists s i.buyer_id then
    some { s with invoices := s.invoices ++ [i] }
  else
    none

/-- `INSERT INTO itn_core.settlements`: stored when the CHECK constraints,
the PRIMARY KEY, the UNIQUE `invoice_id` (line 151) and the foreign keys
accept the row; otherwise the statement fails. -/
def insertSettlement (s : DBState) (st : Settlement) : Option DBState :=
  if settlementRowCheck st &&
      !(s.settlements.any (fun x => x.id == st.id)) &&
      !(s.settlements.any (fun x => x.invoice_id == st.invoice_id)) &&
      invoiceExists s st.invoice_id && accountExists s st.supplier_id &&
      accountExists s st.buyer_id && accountExists s st.capital_provider_id then
    some { s with settlements := s.settlements ++ [st] }
  else
    none

/-- The body of trigger function `validate_line_items_sum` (schema lines
481-500) for invoice `invId`: look up the invoice amount, sum the stored
line-item amounts for the invoice, and raise (return `false`) when
`ABS(line_items_sum - invoice_amount) > 0.01`, i.e. more than one cent. -/
def lineItemsSumOk (invoices : List Invoice) (items : List LineItem)
    (invId : String) : Bool :=
  match invoices.find? (fun i => i.id == invId) with
  | none => false
  | some inv =>
      let line_items_sum :=
        ((items.filter (fun li => li.invoice_id == invId)).map lineItemAmount).sum
      !((line_items_sum - inv.amount).natAbs > 1)

/-- Acceptance condition for a single-row `INSERT INTO
itn_core.line_items`: the row passes its CHECK constraints, the
`UNIQUE(invoice_id, line_number)` constraint and the invoice foreign key,
and the `validate_line_items` trigger (AFTER INSERT, lines 499-500) runs
`validate_line_items_sum` over the new table contents without raising. -/
def lineItemInsertOk (s : DBState) (li : LineItem) : Bool :=
  lineItemRowCheck li &&
    !(s.line_items.any (fun x =>
      x.invoice_id == li.invoice_id && x.line_number == li.line_number)) &&
    invoiceExists s li.invoice_id &&
    lineItemsSumOk s.invoices (s.line_items ++ [li]) li.invoice_id

/-- A single-row `INSERT INTO itn_core.line_items`; a constraint failure
or trigger exception aborts the whole write, so on failure no row is
created. -/
def insertLineItem (s : DBState) (li : LineItem) : Option DBState :=
  if lineItemInsertOk s li then
    some { s with line_items := s.line_items ++ [li] }
  else
    none

/-- A single-row `UPDATE` of `itn_core.line_items` keyed by
`(invoice_id, line_number)`, setting `quantity` and `unit_price`.  The
CHECK constraints are re-evaluated and the `validate_line_items` trigger
(AFTER UPDATE) re-runs the sum validation; an exception aborts the
write. -/
def updateLineItem (s : DBState) (invId : String) (ln : Int)
    (q p : Int) : Option DBState :=
  if 0 < q && 0 < p then
    let items := s.line_items.map (fun x =>
      if x.invoice_id == invId && x.line_number == ln then
        { x with quantity := q, unit_price := p }
      else x)
    if lineItemsSumOk s.invoices items invId then
      some { s with line_items := items }
    else
      none
  else
    none

/-- Row of `itn_audit.decision_ledger` (schema lines 248-273).
`state_snapshot` and `error_message` are omitted. -/
structure DecisionRecord where
  decision_id : String
  invariant_id : String
  check_type : String
  result : Bool
  action : String
  actor : Option String
  signature : String
  previous_record_hash : Option String
deriving DecidableEq, Repr

/-- A DML statement against `itn_audit.decision_ledger`. -/
inductive LedgerStmt where
  | insert (r : DecisionRecord)
  | update (cond : DecisionRecord → Bool) (f : DecisionRecord → DecisionRecord)
  | delete (cond : DecisionRecord → Bool)

/-- Outcome of executing one statement: whether it succeeded and how many
rows it affected. -/
structure StmtOutcome where
  ok : Bool
  rowsAffected : Nat
deriving DecidableEq, Repr

/-- Execution of one statement against `itn_audit.decision_ledger`.  The
rules `decision_ledger_no_update` and `decision_ledger_no_delete` (schema
lines 276-277) are `ON UPDATE/DELETE ... DO INSTEAD NOTHING`: the
statement is rewritten to nothing, so it succeeds, raises no error and
affects zero rows, leaving the table unchanged.  Inserts append. -/
def execLedgerStmt (led : List DecisionRecord) :
    LedgerStmt → List DecisionRecord × StmtOutcome
  | .insert r => (led ++ [r], ⟨true, 1⟩)
  | .update _ _ => (led, ⟨true, 0⟩)
  | .delete _ => (led, ⟨true, 0⟩)

/-- Execution of a sequence of statements against the decision ledger. -/
def execLedgerStmts (led : List DecisionRecord)
    (stmts : List LedgerStmt) : List DecisionRecord :=
  stmts.foldl (fun l st => (execLedgerStmt l st).1) led

/-- Freshness part of the pre-check of `inv_109_pricing_freshness`
(`src/unnamed/part_000`, lines 710-727):
`pricing_quote.created_at > (now() - 5 minutes)`, in milliseconds. -/
def quoteAgeFresh (now : Int) (q : PricingQuote) : Bool :=
  now - 300000 < q.created_at

/-- Modelled from the spec: the acceptance pre-check on a quote.  The
freshness conjunct is `inv_109_pricing_freshness` from the invariant
catalogue in src; the consumed-quote conjunct is only specified in the
spec ("a quote is consumable at most once", "a stale or already-consumed
quote fails the pre-check") over the `used` column of
`itn_core.pricing_quotes`; no src code reads the flag. -/
def quotePreCheck (now : Int) (q : PricingQuote) : Bool :=
  quoteAgeFresh now q && !q.used

/-- Rounding half away from zero to an integer number of cents. -/
def roundHalfAwayFromZero (q : Rat) : Int :=
  if 0 ≤ q then ⌊q + 1/2⌋ else -⌊(1/2) - q⌋

/-- Modelled from the spec: the pricing computation
`total_cost = amount × (1 + discount_rate × terms / 365)`, rounded
half-away-from-zero to two decimal places (spec section 4.6).  The
computation itself is not in src; only its result columns
(`pricing_quotes.total_cost`, `settlements.buyer_cost`) are.  Amount and
result in cents. -/
def totalCostCents (amountCents : Int) (rate : Rat) (terms : Int) : Int :=
  roundHalfAwayFromZero ((amountCents : Rat) * (1 + rate * terms / 365))

/-! Concrete rows and states used as counterexamples and witnesses. -/

def supAcc : Account :=
  ⟨"SUP-001", .SUPPLIER, .ACTIVE, .VERIFIED, 5000000, none⟩

def buyAcc : Account :=
  ⟨"BUY-001", .BUYER, .ACTIVE, .VERIFIED, 50000000, some 100000000⟩

def capAcc : Account :=
  ⟨"CAP-001", .CAPITAL_PROVIDER, .ACTIVE, .VERIFIED, 1000000000, none⟩

def emptyState : DBState := ⟨[], [], [], [], [], []⟩

def c4Inv : Invoice :=
  ⟨"INV-4", "SUP-001", "BUY-001", 10000, 30, .FAILED, none, "hash-4"⟩

def c4State : DBState := ⟨[supAcc, buyAcc, capAcc], [], [], [], [], []⟩

def c6State : DBState := ⟨[supAcc, buyAcc, capAcc], [], [], [], [], []⟩

def inv9999 : Invoice :=
  ⟨"INV-6a", "SUP-001", "BUY-001", 9999, 30, .PENDING, none, "hash-6a"⟩

def inv100 : Invoice :=
  ⟨"INV-6b", "SUP-001", "BUY-001", 10000, 30, .PENDING, none, "hash-6b"⟩

def inv10M : Invoice :=
  ⟨"INV-6c", "SUP-001", "BUY-001", 1000000000, 30, .PENDING, none, "hash-6c"⟩

def inv5cents : Invoice :=
  ⟨"INV-6d", "SUP-001", "BUY-001", 5, 30, .PENDING, none, "hash-6d"⟩

def c7Stl : Settlement :=
  ⟨"STL-7", "INV-7", "SUP-001", "BUY-001", "CAP-001", 5000000, 6/100,
    totalCostCents 5000000 (6/100) 30, 0, some 2300, .COMPLETED, some "RTP"⟩

/-- C4: after compensation the invoice moves `ACCEPTED → FAILED`, and from
`FAILED` exactly one further transition, to `REJECTED`, is permitted —
per `ALLOWED_TRANSITIONS` in `src/unnamed/part_000`.  But the CHECK
constraint on `itn_core.invoices.status` (schema line 88) omits `FAILED`,
so the database rejects storing the status the transition table and the
spec require: an otherwise-valid invoice row with status `FAILED` fails
the row check and its insert creates no row, while the same row with an
allowed status passes.  The code contradicts its own transition table. -/
theorem failed_status_divergence :
    InvoiceStatus.FAILED ∈ ALLOWED_TRANSITIONS InvoiceStatus.ACCEPTED ∧
    ALLOWED_TRANSITIONS InvoiceStatus.FAILED = [InvoiceStatus.REJECTED] ∧
    invoiceStatusCheck InvoiceStatus.FAILED = false ∧
    c4Inv.status = InvoiceStatus.FAILED ∧
    invoiceRowCheck c4Inv = false ∧
    insertInvoice c4State c4Inv = none ∧
    invoiceRowCheck { c4Inv with status := InvoiceStatus.REJECTED } = true := by
  decide

/-- C5 (amended): the fraud gate pre-check `inv_202_fraud_score_fresh`
passes a fresh score exactly when the score is strictly below 0.75:
0.7499 proceeds, while 0.7500 and 0.7501 are blocked; and a score above
0.75 is blocked under all circumstances, as `inv_302_fraud_accuracy`
demands. -/
theorem fraud_gate_strict_threshold :
    (∀ now calcAt score : Int, now - 86400000 < calcAt →
      (fraudPreCheck now calcAt score = true ↔ score < 7500)) ∧
    (∀ now calcAt score : Int, 7500 < score →
      fraudPreCheck now calcAt score = false) := by
  constructor
  · intro now calcAt score h
    simp [fraudPreCheck, h]
  · intro now calcAt score h
    have h7 : ¬ (score < 7500) := by omega
    simp [fraudPreCheck, h7]

/-- C5 counterexample: a fresh fraud score of exactly 0.75 (7500 in units
of 1/10000) fails the gate pre-check, so the boundary score does not
proceed as the claim states. -/
theorem fraud_gate_blocks_exact_threshold :
    ((1000 : Int) - 86400000 < 500) ∧ fraudPreCheck 1000 500 7500 = false := by
  decide

/-- C5 witness: at a concrete fresh timestamp, score 0.7499 passes the
gate and score 0.7501 is blocked. -/
theorem fraud_gate_strict_threshold_witness :
    fraudPreCheck 1000 500 7499 = true ∧ fraudPreCheck 1000 500 7501 = false :=
  ⟨(fraud_gate_strict_threshold.1 1000 500 7499 (by decide)).mpr (by decide),
    fraud_gate_strict_threshold.2 1000 500 7501 (by decide)⟩

/-- C6: invoice submission accepts an amount exactly when it lies in the
closed interval [100.00, 10 000 000.00] dollars ([10000, 1000000000]
cents), per the CHECK constraint on `itn_core.invoices.amount` (schema
line 81): 99.99 is rejected with no row created, 100.00 and
10 000 000.00 are accepted. -/
theorem amount_range_admission :
    (∀ c : Int, invoiceAmountCheck c = true ↔ 10000 ≤ c ∧ c ≤ 1000000000) ∧
    (∀ (s : DBState) (i : Invoice), invoiceAmountCheck i.amount = false →
      insertInvoice s i = none) ∧
    insertInvoice c6State inv9999 = none ∧
    (insertInvoice c6State inv100).isSome = true ∧
    (insertInvoice c6State inv10M).isSome = true := by
  refine ⟨?_, ?_, by decide, by decide, by decide⟩
  · intro c
    simp [invoiceAmountCheck]
  · intro s i h
    simp [insertInvoice, invoiceRowCheck, h]

/-- C6 witness: submitting an otherwise-valid invoice of 0.05 dollars to
the empty database is rejected with no row created. -/
theorem amount_range_admission_witness :
    invoiceAmountCheck inv5cents.amount = false ∧
    insertInvoice emptyState inv5cents = none :=
  ⟨by decide, amount_range_admission.2.1 emptyState inv5cents (by decide)⟩

/-- C7: the quoted total cost is
`amount × (1 + discount_rate × terms / 365)` rounded half-away-from-zero
to two decimals, and the capital provider's profit is the generated
column `buyer_cost - invoice_amount`; for amount 50 000, terms 30 and
winning rate 6.0% the total cost is exactly 50 246.58 and the profit
246.58 (values in cents). -/
theorem pricing_total_cost_and_profit :
    (∀ st : Settlement, capitalProfit st = st.buyer_cost - st.invoice_amount) ∧
    totalCostCents 5000000 (6/100) 30 = 5024658 ∧
    c7Stl.invoice_amount = 5000000 ∧
    capitalProfit c7Stl = 24658 := by
  have h : totalCostCents 5000000 (6/100) 30 = 5024658 := by
    unfold totalCostCents roundHalfAwayFromZero
    rw [if_pos (by norm_num)]
    rw [Int.floor_eq_iff]
    norm_num
  refine ⟨fun st => rfl, h, rfl, ?_⟩
  show c7Stl.buyer_cost - c7Stl.invoice_amount = 24658
  show totalCostCents 5000000 (6/100) 30 - 5000000 = 24658
  rw [h]
  decide

def c1Inv : Invoice :=
  ⟨"INV-1", "SUP-001", "BUY-001", 10000, 30, .SETTLED, some 100, "hash-1"⟩

def c1Stl : Settlement :=
  ⟨"STL-1", "INV-1", "SUP-001", "BUY-001", "CAP-001", 10000, 6/100, 10500,
    0, some 2000, .COMPLETED, some "RTP"⟩

/-- A state whose legs balance in the view's credit-vs-debit sense while
carrying a nonzero advance leg. -/
def c1State : DBState :=
  ⟨[supAcc, buyAcc, capAcc], [c1Inv], [],
    [c1Stl],
    [⟨"STL-1", .CREDIT, "SUP-001", 10000, "tx-1"⟩,
      ⟨"STL-1", .DEBIT, "BUY-001", 10000, "tx-2"⟩,
      ⟨"STL-1", .ADVANCE, "CAP-001", 500, "tx-3"⟩],
    []⟩

def c1AdvLeg : SettlementLeg := ⟨"STL-1", .ADVANCE, "CAP-001", 500, "tx-3"⟩

/-- C1 (amended): the `ledger_balanced` column of the
`itn_core.system_health` view reports balanced exactly when the sum of
credit legs equals the sum of debit legs (within 0.01, which over whole
cents is equality); capital-advance legs do not enter the comparison at
all — prepending an advance leg never changes the verdict. -/
theorem ledger_balanced_ignores_advance :
    (∀ legs : List SettlementLeg, ledgerBalanced legs = true ↔
      sumLegs legs LegType.CREDIT = sumLegs legs LegType.DEBIT) ∧
    (∀ (l : SettlementLeg) (legs : List SettlementLeg),
      l.leg_type = LegType.ADVANCE →
        ledgerBalanced (l :: legs) = ledgerBalanced legs) := by
  constructor
  · intro legs
    simp [ledgerBalanced, Nat.lt_one_iff, Int.natAbs_eq_zero, sub_eq_zero]
  · intro l legs h
    have hc : (l.leg_type == LegType.CREDIT) = false := by rw [h]; decide
    have hd : (l.leg_type == LegType.DEBIT) = false := by rw [h]; decide
    unfold ledgerBalanced
    rw [show sumLegs (l :: legs) LegType.CREDIT = sumLegs legs LegType.CREDIT by
      simp [sumLegs, List.filter_cons, hc]]
    rw [show sumLegs (l :: legs) LegType.DEBIT = sumLegs legs LegType.DEBIT by
      simp [sumLegs, List.filter_cons, hd]]

/-- C1 counterexample: a reachable state (all schema constraints hold) in
which the view reports balanced although the credit sum differs from the
debit-plus-advance sum by 5.00: the claimed equation neither matches the
view's verdict nor holds in every reachable state. -/
theorem ledger_balanced_counterexample :
    schemaOk c1State = true ∧
    ledgerBalanced c1State.legs = true ∧
    specBalanced c1State.legs = false := by
  decide

/-- C1 witness: prepending a concrete advance leg to the empty leg list
leaves the view's verdict unchanged. -/
theorem ledger_balanced_ignores_advance_witness :
    ledgerBalanced [c1AdvLeg] = ledgerBalanced [] :=
  ledger_balanced_ignores_advance.2 c1AdvLeg [] rfl

def c3Stl : Settlement :=
  ⟨"STL-3", "INV-1", "SUP-001", "BUY-001", "CAP-001", 10000, 6/100, 10500,
    0, some 7000, .COMPLETED, some "RTP"⟩

def c3FastStl : Settlement :=
  ⟨"STL-3b", "INV-1", "SUP-001", "BUY-001", "CAP-001", 10000, 6/100, 10500,
    0, some 4000, .COMPLETED, some "RTP"⟩

/-- C3 (amended): under `settlement_duration_check` (schema line 179)
every storable completed settlement has `completed_at - started_at`
strictly below 5 s (5000 ms), and a settlement row violating the check is
rejected by insertion — so the scenario's completed settlement with
elapsed time above 5 s and at most 10 s is not a recordable outcome. -/
theorem settlement_duration_enforced :
    (∀ st : Settlement, settlementRowCheck st = true →
      ∀ c, st.completed_at = some c → c - st.started_at < 5000) ∧
    (∀ (s : DBState) (st : Settlement), settlementRowCheck st = false →
      insertSettlement s st = none) := by
  constructor
  · intro st h c hc
    simp [settlementRowCheck, hc] at h
    exact h
  · intro s st h
    simp [insertSettlement, h]

/-- C3 counterexample: a completed settlement whose elapsed time is 7 s —
inside the claimed permitted band of more than 5 s and at most 10 s —
fails `settlement_duration_check`, so it cannot be recorded. -/
theorem settlement_duration_counterexample :
    c3Stl.status = SettlementStatus.COMPLETED ∧
    c3Stl.completed_at = some 7000 ∧ c3Stl.started_at = 0 ∧
    settlementRowCheck c3Stl = false ∧
    insertSettlement c1State c3Stl = none := by
  refine ⟨rfl, rfl, rfl, by decide, ?_⟩
  simp [insertSettlement, show settlementRowCheck c3Stl = false by decide]

/-- C3 witness: a concrete completed settlement that passes the check has
its 4 s duration below the 5 s bound. -/
theorem settlement_duration_enforced_witness :
    settlementRowCheck c3FastStl = true ∧
    (4000 : Int) - c3FastStl.started_at < 5000 :=
  ⟨by decide, settlement_duration_enforced.1 c3FastStl (by decide) 4000 rfl⟩

def q8 : PricingQuote :=
  ⟨"INV-1", 5000000, 30, 6/100, 5024658, 0, 300000, false⟩

def q8used : PricingQuote :=
  ⟨"INV-1", 5000000, 30, 6/100, 5024658, 0, 300000, true⟩

def q8short : PricingQuote :=
  ⟨"INV-1", 5000000, 30, 6/100, 5024658, 0, 60000, false⟩

/-- C8 (amended): the schema constraints `quote_validity` and
`quote_expiry_window` enforce `0 < expires_at - created_at ≤ 5 min`, not
the exact equality `expires_at = created_at + 5 min`; the acceptance
pre-check passes exactly when the quote is younger than 5 minutes and not
yet consumed, so a quote aged 299 s passes, one aged 301 s fails, and an
already-used quote fails. -/
theorem quote_window_and_single_use :
    (∀ q : PricingQuote, quoteRowCheck q = true →
      0 < q.expires_at - q.created_at ∧ q.expires_at - q.created_at ≤ 300000) ∧
    (∀ (now : Int) (q : PricingQuote), quotePreCheck now q = true ↔
      (now - q.created_at < 300000 ∧ q.used = false)) ∧
    quotePreCheck 299000 q8 = true ∧
    quotePreCheck 301000 q8 = false ∧
    quotePreCheck 1000 q8used = false := by
  refine ⟨?_, ?_, by decide, by decide, by decide⟩
  · intro q h
    simp [quoteRowCheck] at h
    omega
  · intro now q
    simp [quotePreCheck, quoteAgeFresh]
    intro _
    omega

/-- C8 counterexample: a quote expiring 60 s after issuance satisfies
both schema constraints, so `expires_at = issued_at + 5 min` does not
hold of every storable quote. -/
theorem quote_window_counterexample :
    quoteRowCheck q8short = true ∧
    ¬ (q8short.expires_at = q8short.created_at + 300000) := by
  decide

/-- C8 witness: the concrete quote `q8` passes the schema constraints and
its window is positive and at most 5 minutes. -/
theorem quote_window_and_single_use_witness :
    0 < q8.expires_at - q8.created_at ∧ q8.expires_at - q8.created_at ≤ 300000 :=
  quote_window_and_single_use.1 q8 (by decide)

/-- Any run of statements only ever extends the decision ledger: no
record already present is removed or altered. -/
theorem execLedgerStmts_extends (stmts : List LedgerStmt) :
    ∀ led : List DecisionRecord, ∃ tl, execLedgerStmts led stmts = led ++ tl := by
  induction stmts with
  | nil =>
      intro led
      exact ⟨[], by simp [execLedgerStmts]⟩
  | cons st rest ih =>
      intro led
      cases st with
      | insert r =>
          obtain ⟨tl, htl⟩ := ih (led ++ [r])
          exact ⟨[r] ++ tl, by
            simpa [execLedgerStmts, execLedgerStmt, List.append_assoc] using htl⟩
      | update cond f =>
          obtain ⟨tl, htl⟩ := ih led
          exact ⟨tl, by simpa [execLedgerStmts, execLedgerStmt] using htl⟩
      | delete cond =>
          obtain ⟨tl, htl⟩ := ih led
          exact ⟨tl, by simpa [execLedgerStmts, execLedgerStmt] using htl⟩

/-- C9: by the rules `decision_ledger_no_update` and
`decision_ledger_no_delete`, every UPDATE or DELETE against
`itn_audit.decision_ledger` succeeds, raises no error, affects zero rows
and leaves the table unchanged; consequently any sequence of statements
only appends, so records already inserted never change and are never
removed. -/
theorem decision_ledger_immutable :
    (∀ (led : List DecisionRecord) (cond : DecisionRecord → Bool)
      (f : DecisionRecord → DecisionRecord),
        execLedgerStmt led (LedgerStmt.update cond f) = (led, ⟨true, 0⟩)) ∧
    (∀ (led : List DecisionRecord) (cond : DecisionRecord → Bool),
        execLedgerStmt led (LedgerStmt.delete cond) = (led, ⟨true, 0⟩)) ∧
    (∀ (led : List DecisionRecord) (stmts : List LedgerStmt),
        ∃ tl, execLedgerStmts led stmts = led ++ tl) :=
  ⟨fun _ _ _ => rfl, fun _ _ => rfl, fun led stmts => execLedgerStmts_extends stmts led⟩

def c2Inv : Invoice :=
  ⟨"INV-2", "SUP-001", "BUY-001", 10000, 30, .SETTLED, none, "hash-2"⟩

def c2State : DBState := ⟨[supAcc, buyAcc], [c2Inv], [], [], [], []⟩

/-- C2 (amended): the schema enforces the at-most-once half of the claim:
in every state satisfying the constraints the settlements carry pairwise
distinct invoice ids (`UNIQUE invoice_id`), the legs carry pairwise
distinct `(settlement_id, leg_type)` pairs, hence every settlement has at
most three legs; and inserting a settlement for an invoice that already
has one always fails.  Existence of a settlement and of three legs for a
`SETTLED` invoice is not schema-enforced. -/
theorem settlement_at_most_once (s : DBState) (h : schemaOk s = true) :
    (s.settlements.map fun st => st.invoice_id).Nodup ∧
    (s.legs.map fun l => (l.settlement_id, l.leg_type)).Nodup ∧
    (∀ stlId : String,
      (s.legs.filter fun l => l.settlement_id == stlId).length ≤ 3) ∧
    (∀ st : Settlement,
      s.settlements.any (fun x => x.invoice_id == st.invoice_id) = true →
        insertSettlement s st = none) := by
  simp only [schemaOk, Bool.and_eq_true, decide_eq_true_eq] at h
  obtain ⟨⟨⟨⟨⟨⟨⟨⟨⟨⟨⟨⟨⟨⟨⟨⟨⟨h1, h2⟩, h3⟩, h4⟩, h5⟩, h6⟩, h7⟩, h8⟩, h9⟩,
    h10⟩, h11⟩, h12⟩, h13⟩, h14⟩, h15⟩, h16⟩, h17⟩, h18⟩ := h
  refine ⟨h12, h15, ?_, ?_⟩
  · intro stlId
    have hsub : List.Sublist
        ((s.legs.filter fun l => l.settlement_id == stlId).map
          fun l => (l.settlement_id, l.leg_type))
        (s.legs.map fun l => (l.settlement_id, l.leg_type)) :=
      (List.filter_sublist s.legs).map _
    have hnodup := List.Nodup.sublist hsub h15
    have hsnd : ((s.legs.filter fun l => l.settlement_id == stlId).map
        fun l => l.leg_type).Nodup := by
      have heq : ((s.legs.filter fun l => l.settlement_id == stlId).map
          fun l => l.leg_type) =
          (((s.legs.filter fun l => l.settlement_id == stlId).map
            fun l => (l.settlement_id, l.leg_type)).map Prod.snd) := by
        rw [List.map_map]
        rfl
      rw [heq]
      refine List.Nodup.map_on ?_ hnodup
      intro x hx y hy hxy
      obtain ⟨a, ha, rfl⟩ := List.mem_map.mp hx
      obtain ⟨b, hb, rfl⟩ := List.mem_map.mp hy
      have ha3 : a.settlement_id = stlId := by
        simpa using (List.mem_filter.mp ha).2
      have hb3 : b.settlement_id = stlId := by
        simpa using (List.mem_filter.mp hb).2
      simp only [Prod.mk.injEq]
      exact ⟨ha3.trans hb3.symm, hxy⟩
    calc (s.legs.filter fun l => l.settlement_id == stlId).length
        = ((s.legs.filter fun l => l.settlement_id == stlId).map
            fun l => l.leg_type).length := (List.length_map _ _).symm
      _ ≤ Fintype.card LegType := hsnd.length_le_card
      _ ≤ 3 := by decide
  · intro st hany
    simp [insertSettlement, hany]

/-- C2 counterexample: a state satisfying every schema constraint in
which an invoice has status `SETTLED` and no settlement row references
it — so existence of exactly one settlement with three legs for every
settled invoice is false of the code. -/
theorem settled_without_settlement_counterexample :
    schemaOk c2State = true ∧
    c2Inv ∈ c2State.invoices ∧ c2Inv.status = InvoiceStatus.SETTLED ∧
    c2State.settlements.filter (fun st => st.invoice_id == c2Inv.id) = [] := by
  decide

/-- C2 witness: on a concrete constraint-satisfying state with a
settlement and three legs, the legs of that settlement number at most
three. -/
theorem settlement_at_most_once_witness :
    (c1State.legs.filter fun l => l.settlement_id == "STL-1").length ≤ 3 :=
  (settlement_at_most_once c1State (by decide)).2.2.1 "STL-1"

def c10Inv : Invoice :=
  ⟨"INV-10", "SUP-001", "BUY-001", 20000, 30, .PENDING, none, "hash-10"⟩

def c10State : DBState := ⟨[supAcc, buyAcc], [c10Inv], [], [], [], []⟩

def li1 : LineItem := ⟨"INV-10", "widgets", 1, 10000, 1⟩

def liFull : LineItem := ⟨"INV-10", "widgets", 2, 10000, 1⟩

def liOrphan : LineItem := ⟨"INV-99", "widgets", 1, 10000, 1⟩

def c10State2 : DBState := { c10State with line_items := [liFull] }

/-- C10: every stored line item has `quantity > 0`, `unit_price > 0` and
derived amount `quantity × unit_price`, hence strictly positive; and the
`validate_line_items` trigger aborts any insert or update after which the
invoice's line-item sum differs from the invoice amount by more than
0.01.  Concretely, for an invoice of 200.00 with two 100.00 items,
inserting the first item by itself fails (its prefix sum is off by
100.00) while a single item covering the full amount succeeds; an update
that breaks the sum fails while one preserving it succeeds. -/
theorem line_item_positivity_and_sum_guard :
    (∀ (s : DBState) (li : LineItem) (s2 : DBState),
      insertLineItem s li = some s2 →
        0 < li.quantity ∧ 0 < li.unit_price ∧ 0 < lineItemAmount li) ∧
    (∀ (s : DBState) (li : LineItem),
      lineItemsSumOk s.invoices (s.line_items ++ [li]) li.invoice_id = false →
        insertLineItem s li = none) ∧
    insertLineItem c10State li1 = none ∧
    (insertLineItem c10State liFull).isSome = true ∧
    updateLineItem c10State2 "INV-10" 1 1 10000 = none ∧
    (updateLineItem c10State2 "INV-10" 1 4 5000).isSome = true := by
  refine ⟨?_, ?_, by decide, by decide, by decide, by decide⟩
  · intro s li s2 h
    have hc : lineItemInsertOk s li = true := by
      cases hL : lineItemInsertOk s li
      · simp [insertLineItem, hL] at h
      · rfl
    simp only [lineItemInsertOk, Bool.and_eq_true] at hc
    have hrow := hc.1.1.1
    simp only [lineItemRowCheck, Bool.and_eq_true, decide_eq_true_eq] at hrow
    exact ⟨hrow.1, hrow.2, mul_pos hrow.1 hrow.2⟩
  · intro s li h
    simp [insertLineItem, lineItemInsertOk, h]

/-- C10 witness: a line item naming an absent invoice fails the trigger's
lookup and its insert is aborted with no row written. -/
theorem line_item_sum_guard_witness :
    lineItemsSumOk c10State.invoices (c10State.line_items ++ [liOrphan])
      liOrphan.invoice_id = false ∧
    insertLineItem c10State liOrphan = none :=
  ⟨by decide, line_item_positivity_and_sum_guard.2.1 c10State liOrphan (by decide)⟩

end ITN
